import Mathlib

/-! silero-vad-go: the ONNX Runtime bridge (`speech/ort_bridge.c`)

A shallow embedding of the seventeen forwarding functions of `ort_bridge.c`
and of the accessor `OrtGetApi`, followed by the properties of the bridge.

Conventions of the embedding.

* A C pointer is its address, a natural number; the address `0` is `NULL`.
  Every native handle (`OrtStatus*`, `OrtEnv*`, `OrtSession*`, ...), every
  output slot (`OrtEnv**`, ...) and every `const char*` is such an address:
  the bridge never looks behind one.
* `int` and the C enumerations are integers, `size_t` and `uint32_t` are
  naturals.  The bridge does no arithmetic on them, so no wrap-around can
  occur and the unbounded types only enlarge the set of inputs covered.
* A function pointer held in a table is `Option`: `none` is a pointer that
  cannot be called.  Calling through it, or reading a table through a null
  or dangling pointer, is undefined behaviour in C and a `Fault` here.
* The native library is effectful.  Its functions are state transformers on
  an arbitrary state type `σ` (which also holds the caller's memory, where
  the output slots live).  The machine state `Mach σ` pairs that state with
  the trace of calls made through function pointers so far.
-/

namespace OrtBridge

/-- Address held by a C pointer; `0` is `NULL`. -/
abbrev Ptr := Nat

/-- One call made by the bridge into the native library: the function called
and the arguments it received, in the order of the C call. -/
inductive Call where
  | OrtGetApiBase
  | GetApi (version : Nat)
  | ReleaseStatus (status : Ptr)
  | GetErrorMessage (status : Ptr)
  | CreateEnv (log_level : Int) (log_id : Ptr) (env : Ptr)
  | ReleaseEnv (env : Ptr)
  | CreateSessionOptions (opts : Ptr)
  | ReleaseSessionOptions (opts : Ptr)
  | SetIntraOpNumThreads (opts : Ptr) (intra_op_num_threads : Int)
  | SetInterOpNumThreads (opts : Ptr) (inter_op_num_threads : Int)
  | SetSessionGraphOptimizationLevel (opts : Ptr) (graph_optimization_level : Int)
  | CreateSession (env : Ptr) (model_path : Ptr) (opts : Ptr) (session : Ptr)
  | ReleaseSession (session : Ptr)
  | CreateCpuMemoryInfo (alloc_type : Int) (mem_type : Int) (minfo : Ptr)
  | ReleaseMemoryInfo (minfo : Ptr)
  | CreateTensorWithDataAsOrtValue (minfo : Ptr) (data : Ptr) (data_len : Nat)
      (shape : Ptr) (shape_len : Nat) (data_type : Int) (value : Ptr)
  | ReleaseValue (value : Ptr)
  | Run (session : Ptr) (run_options : Ptr) (input_names : Ptr) (inputs : Ptr)
      (inputs_len : Nat) (output_names : Ptr) (output_names_len : Nat) (outputs : Ptr)
  | GetTensorMutableData (value : Ptr) (data : Ptr)
  deriving DecidableEq, Repr

/-- Modelled from the spec: the API table `OrtApi` is declared in
`onnxruntime_c_api.h`, which is not among the repository sources.  Only the
seventeen entries that `ort_bridge.c` calls are kept; the parameter lists are
those of the call sites.  An entry is a function pointer (`none`: not
callable) to a state transformer of the native library. -/
structure OrtApi (σ : Type) where
  ReleaseStatus : Option (Ptr → σ → σ)
  GetErrorMessage : Option (Ptr → σ → Ptr × σ)
  CreateEnv : Option (Int → Ptr → Ptr → σ → Ptr × σ)
  ReleaseEnv : Option (Ptr → σ → σ)
  CreateSessionOptions : Option (Ptr → σ → Ptr × σ)
  ReleaseSessionOptions : Option (Ptr → σ → σ)
  SetIntraOpNumThreads : Option (Ptr → Int → σ → Ptr × σ)
  SetInterOpNumThreads : Option (Ptr → Int → σ → Ptr × σ)
  SetSessionGraphOptimizationLevel : Option (Ptr → Int → σ → Ptr × σ)
  CreateSession : Option (Ptr → Ptr → Ptr → Ptr → σ → Ptr × σ)
  ReleaseSession : Option (Ptr → σ → σ)
  CreateCpuMemoryInfo : Option (Int → Int → Ptr → σ → Ptr × σ)
  ReleaseMemoryInfo : Option (Ptr → σ → σ)
  CreateTensorWithDataAsOrtValue :
    Option (Ptr → Ptr → Nat → Ptr → Nat → Int → Ptr → σ → Ptr × σ)
  ReleaseValue : Option (Ptr → σ → σ)
  Run : Option (Ptr → Ptr → Ptr → Ptr → Nat → Ptr → Nat → Ptr → σ → Ptr × σ)
  GetTensorMutableData : Option (Ptr → Ptr → σ → Ptr × σ)

/-- Modelled from the spec: the API base `OrtApiBase` is declared in
`onnxruntime_c_api.h`, which is not among the repository sources.  Only the
entry `GetApi` that `OrtGetApi` calls is kept. -/
structure OrtApiBase (σ : Type) where
  GetApi : Option (Nat → σ → Ptr × σ)

/-- Modelled from the spec: the native library as linked into the process,
which is not among the repository sources: its exported function
`OrtGetApiBase` and the read-only tables found at each address. -/
structure Runtime (σ : Type) where
  OrtGetApiBase : σ → Ptr × σ
  baseAt : Ptr → Option (OrtApiBase σ)
  apiAt : Ptr → Option (OrtApi σ)

/-- Machine state: the state of the native library and of memory, and the
trace of calls made through the library so far (oldest first). -/
structure Mach (σ : Type) where
  lib : σ
  trace : List Call

/-- Outcome of undefined behaviour in the C program. -/
inductive Fault where
  | nullTable
  | nullEntry
  deriving DecidableEq, Repr

/-- A C function running on the machine: a fault, or a return value and the
machine state after the call. -/
abbrev Exec (σ α : Type) := Mach σ → Except Fault (α × Mach σ)

/-- Read a table through pointer `p`: a fault for `NULL` and for an address
holding no table. -/
def deref {τ : Type} (heap : Ptr → Option τ) (p : Ptr) : Option τ :=
  if p = 0 then none else heap p

/-- The C expression `api->Entry(args)` once `api->Entry` has been read:
`entry` is the function pointer already applied to the arguments, `c` the
record of the call.  The call is appended to the trace and the state of the
library becomes the one the entry leaves. -/
def callEntry {σ α : Type} (c : Call) (entry : Option (σ → α × σ)) : Exec σ α :=
  fun m =>
    match entry with
    | none => .error .nullEntry
    | some f => .ok ((f m.lib).1, ⟨(f m.lib).2, m.trace ++ [c]⟩)

/-- The C expression `api->...`: read the table behind `api`, then go on. -/
def viaApi {σ α : Type} (rt : Runtime σ) (api : Ptr) (k : OrtApi σ → Exec σ α) : Exec σ α :=
  fun m =>
    match deref rt.apiAt api with
    | none => .error .nullTable
    | some t => k t m

/-- A `void` table entry seen as one returning the unit value. -/
def voidEntry {σ : Type} (f : σ → σ) : σ → Unit × σ :=
  fun s => ((), f s)

section Bridge

variable {σ : Type}

/-- `const OrtApi* OrtGetApi()`:
`return OrtGetApiBase()->GetApi(ORT_API_VERSION);`.
The constant `ORT_API_VERSION` comes from `onnxruntime_c_api.h` and is a
parameter here. -/
def OrtGetApi (rt : Runtime σ) (ORT_API_VERSION : Nat) : Exec σ Ptr :=
  fun m =>
    let b := rt.OrtGetApiBase m.lib
    match deref rt.baseAt b.1 with
    | none => .error .nullTable
    | some base =>
      callEntry (.GetApi ORT_API_VERSION) (base.GetApi.map fun g => g ORT_API_VERSION)
        ⟨b.2, m.trace ++ [.OrtGetApiBase]⟩

/-- `void OrtApiReleaseStatus(OrtApi* api, OrtStatus* status)`:
`return api->ReleaseStatus(status);`. -/
def OrtApiReleaseStatus (rt : Runtime σ) (api : Ptr) (status : Ptr) : Exec σ Unit :=
  viaApi rt api fun t =>
    callEntry (.ReleaseStatus status) (t.ReleaseStatus.map fun f => voidEntry (f status))

/-- `const char* OrtApiGetErrorMessage(OrtApi* api, OrtStatus* status)`:
`return api->GetErrorMessage(status);`. -/
def OrtApiGetErrorMessage (rt : Runtime σ) (api : Ptr) (status : Ptr) : Exec σ Ptr :=
  viaApi rt api fun t =>
    callEntry (.GetErrorMessage status) (t.GetErrorMessage.map fun f => f status)

/-- `OrtStatus* OrtApiCreateEnv(OrtApi* api, OrtLoggingLevel log_level,
const char* log_id, OrtEnv** env)`:
`return api->CreateEnv(log_level, log_id, env);`. -/
def OrtApiCreateEnv (rt : Runtime σ) (api : Ptr) (log_level : Int) (log_id : Ptr)
    (env : Ptr) : Exec σ Ptr :=
  viaApi rt api fun t =>
    callEntry (.CreateEnv log_level log_id env)
      (t.CreateEnv.map fun f => f log_level log_id env)

/-- `void OrtApiReleaseEnv(OrtApi* api, OrtEnv* env)`:
`return api->ReleaseEnv(env);`. -/
def OrtApiReleaseEnv (rt : Runtime σ) (api : Ptr) (env : Ptr) : Exec σ Unit :=
  viaApi rt api fun t =>
    callEntry (.ReleaseEnv env) (t.ReleaseEnv.map fun f => voidEntry (f env))

/-- `OrtStatus* OrtApiCreateSessionOptions(OrtApi* api, OrtSessionOptions** opts)`:
`return api->CreateSessionOptions(opts);`. -/
def OrtApiCreateSessionOptions (rt : Runtime σ) (api : Ptr) (opts : Ptr) : Exec σ Ptr :=
  viaApi rt api fun t =>
    callEntry (.CreateSessionOptions opts) (t.CreateSessionOptions.map fun f => f opts)

/-- `void OrtApiReleaseSessionOptions(OrtApi* api, OrtSessionOptions* opts)`:
`return api->ReleaseSessionOptions(opts);`. -/
def OrtApiReleaseSessionOptions (rt : Runtime σ) (api : Ptr) (opts : Ptr) : Exec σ Unit :=
  viaApi rt api fun t =>
    callEntry (.ReleaseSessionOptions opts)
      (t.ReleaseSessionOptions.map fun f => voidEntry (f opts))

/-- `OrtStatus* OrtApiSetIntraOpNumThreads(OrtApi* api, OrtSessionOptions* opts,
int intra_op_num_threads)`:
`return api->SetIntraOpNumThreads(opts, intra_op_num_threads);`. -/
def OrtApiSetIntraOpNumThreads (rt : Runtime σ) (api : Ptr) (opts : Ptr)
    (intra_op_num_threads : Int) : Exec σ Ptr :=
  viaApi rt api fun t =>
    callEntry (.SetIntraOpNumThreads opts intra_op_num_threads)
      (t.SetIntraOpNumThreads.map fun f => f opts intra_op_num_threads)

/-- `OrtStatus* OrtApiSetInterOpNumThreads(OrtApi* api, OrtSessionOptions* opts,
int inter_op_num_threads)`:
`return api->SetInterOpNumThreads(opts, inter_op_num_threads);`. -/
def OrtApiSetInterOpNumThreads (rt : Runtime σ) (api : Ptr) (opts : Ptr)
    (inter_op_num_threads : Int) : Exec σ Ptr :=
  viaApi rt api fun t =>
    callEntry (.SetInterOpNumThreads opts inter_op_num_threads)
      (t.SetInterOpNumThreads.map fun f => f opts inter_op_num_threads)

/-- `OrtStatus* OrtApiSetSessionGraphOptimizationLevel(OrtApi* api,
OrtSessionOptions* opts, GraphOptimizationLevel graph_optimization_level)`:
`return api->SetSessionGraphOptimizationLevel(opts, graph_optimization_level);`. -/
def OrtApiSetSessionGraphOptimizationLevel (rt : Runtime σ) (api : Ptr) (opts : Ptr)
    (graph_optimization_level : Int) : Exec σ Ptr :=
  viaApi rt api fun t =>
    callEntry (.SetSessionGraphOptimizationLevel opts graph_optimization_level)
      (t.SetSessionGraphOptimizationLevel.map fun f => f opts graph_optimization_level)

/-- `OrtStatus* OrtApiCreateSession(OrtApi* api, OrtEnv* env, const char* model_path,
OrtSessionOptions* opts, OrtSession** session)`:
`return api->CreateSession(env, model_path, opts, session);`. -/
def OrtApiCreateSession (rt : Runtime σ) (api : Ptr) (env : Ptr) (model_path : Ptr)
    (opts : Ptr) (session : Ptr) : Exec σ Ptr :=
  viaApi rt api fun t =>
    callEntry (.CreateSession env model_path opts session)
      (t.CreateSession.map fun f => f env model_path opts session)

/-- `void OrtApiReleaseSession(OrtApi* api, OrtSession* session)`:
`return api->ReleaseSession(session);`. -/
def OrtApiReleaseSession (rt : Runtime σ) (api : Ptr) (session : Ptr) : Exec σ Unit :=
  viaApi rt api fun t =>
    callEntry (.ReleaseSession session) (t.ReleaseSession.map fun f => voidEntry (f session))

/-- `OrtStatus* OrtApiCreateCpuMemoryInfo(OrtApi* api, enum OrtAllocatorType alloc_type,
enum OrtMemType mem_type, OrtMemoryInfo** minfo)`:
`return api->CreateCpuMemoryInfo(alloc_type, mem_type, minfo);`. -/
def OrtApiCreateCpuMemoryInfo (rt : Runtime σ) (api : Ptr) (alloc_type : Int)
    (mem_type : Int) (minfo : Ptr) : Exec σ Ptr :=
  viaApi rt api fun t =>
    callEntry (.CreateCpuMemoryInfo alloc_type mem_type minfo)
      (t.CreateCpuMemoryInfo.map fun f => f alloc_type mem_type minfo)

/-- `void OrtApiReleaseMemoryInfo(OrtApi* api, OrtMemoryInfo *minfo)`:
`return api->ReleaseMemoryInfo(minfo);`. -/
def OrtApiReleaseMemoryInfo (rt : Runtime σ) (api : Ptr) (minfo : Ptr) : Exec σ Unit :=
  viaApi rt api fun t =>
    callEntry (.ReleaseMemoryInfo minfo) (t.ReleaseMemoryInfo.map fun f => voidEntry (f minfo))

/-- `OrtStatus* OrtApiCreateTensorWithDataAsOrtValue(OrtApi* api,
const OrtMemoryInfo* minfo, void* data, size_t data_len, const int64_t* shape,
size_t shape_len, ONNXTensorElementDataType data_type, OrtValue** value)`:
`return api->CreateTensorWithDataAsOrtValue(minfo, data, data_len, shape, shape_len,
data_type, value);`. -/
def OrtApiCreateTensorWithDataAsOrtValue (rt : Runtime σ) (api : Ptr) (minfo : Ptr)
    (data : Ptr) (data_len : Nat) (shape : Ptr) (shape_len : Nat) (data_type : Int)
    (value : Ptr) : Exec σ Ptr :=
  viaApi rt api fun t =>
    callEntry (.CreateTensorWithDataAsOrtValue minfo data data_len shape shape_len data_type value)
      (t.CreateTensorWithDataAsOrtValue.map fun f =>
        f minfo data data_len shape shape_len data_type value)

/-- `void OrtApiReleaseValue(OrtApi* api, OrtValue *value)`:
`return api->ReleaseValue(value);`. -/
def OrtApiReleaseValue (rt : Runtime σ) (api : Ptr) (value : Ptr) : Exec σ Unit :=
  viaApi rt api fun t =>
    callEntry (.ReleaseValue value) (t.ReleaseValue.map fun f => voidEntry (f value))

/-- `OrtStatus* OrtApiRun(OrtApi* api, OrtSession* session,
const OrtRunOptions* run_options, const char* const* input_names,
const OrtValue* const* inputs, size_t inputs_len, const char* const* output_names,
size_t output_names_len, OrtValue** outputs)`:
`return api->Run(session, run_options, input_names, inputs, inputs_len, output_names,
output_names_len, outputs);`. -/
def OrtApiRun (rt : Runtime σ) (api : Ptr) (session : Ptr) (run_options : Ptr)
    (input_names : Ptr) (inputs : Ptr) (inputs_len : Nat) (output_names : Ptr)
    (output_names_len : Nat) (outputs : Ptr) : Exec σ Ptr :=
  viaApi rt api fun t =>
    callEntry
      (.Run session run_options input_names inputs inputs_len output_names output_names_len
        outputs)
      (t.Run.map fun f =>
        f session run_options input_names inputs inputs_len output_names output_names_len
          outputs)

/-- `OrtStatus* OrtApiGetTensorMutableData(OrtApi* api, OrtValue* value, void** data)`:
`return api->GetTensorMutableData(value, data);`. -/
def OrtApiGetTensorMutableData (rt : Runtime σ) (api : Ptr) (value : Ptr) (data : Ptr) :
    Exec σ Ptr :=
  viaApi rt api fun t =>
    callEntry (.GetTensorMutableData value data)
      (t.GetTensorMutableData.map fun f => f value data)

end Bridge

/-! ## Observations and scenarios of the specification -/

section Observations

variable {σ : Type}

/-- How memory is read out of the library state: the handle stored in a
pointer-sized cell and the byte stored at an address. -/
structure Memory (σ : Type) where
  loadPtr : σ → Ptr → Ptr
  loadByte : σ → Ptr → Nat

/-- A non-empty C string at `p`: `p` is not `NULL` and its first byte is not
the terminator. -/
def nonEmptyCStr (mem : Memory σ) (s : σ) (p : Ptr) : Prop :=
  p ≠ 0 ∧ mem.loadByte s p ≠ 0

/-- Contract of the native library for a constructor returning `r` (status and
state left): a null status comes with a non-null handle in `slot`. -/
def SlotContract (mem : Memory σ) (slot : Ptr) (r : Ptr × σ) : Prop :=
  r.1 = 0 → mem.loadPtr r.2 slot ≠ 0

/-- Property of a constructor call of the bridge with outcome `out`: the call
returns, and a null status comes with a non-null handle in `slot`. -/
def SuccessFillsSlot (mem : Memory σ) (slot : Ptr) (out : Except Fault (Ptr × Mach σ)) : Prop :=
  match out with
  | .ok (status, m) => status = 0 → mem.loadPtr m.lib slot ≠ 0
  | .error _ => False

/-- Contract of the native library for the message entry `g` on a constructor
returning `r`: a non-null status has a non-empty message. -/
def MessageContract (mem : Memory σ) (g : Ptr → σ → Ptr × σ) (r : Ptr × σ) : Prop :=
  r.1 ≠ 0 → nonEmptyCStr mem (g r.1 r.2).2 (g r.1 r.2).1

/-- Property of a constructor call of the bridge with outcome `out`: the call
returns, and `OrtApiGetErrorMessage` on a non-null status returns a non-empty
string. -/
def FailureHasMessage (mem : Memory σ) (rt : Runtime σ) (api : Ptr)
    (out : Except Fault (Ptr × Mach σ)) : Prop :=
  match out with
  | .ok (status, m) =>
    status ≠ 0 →
      match OrtApiGetErrorMessage rt api status m with
      | .ok (msg, m1) => nonEmptyCStr mem m1.lib msg
      | .error _ => False
  | .error _ => False

/-- Scenario of the specification, "call the API accessor twice": the two
tables returned, the second call running in the state the first one left. -/
def OrtGetApiTwice (rt : Runtime σ) (ORT_API_VERSION : Nat) : Exec σ (Ptr × Ptr) :=
  fun m =>
    match OrtGetApi rt ORT_API_VERSION m with
    | .error e => .error e
    | .ok (first, m1) =>
      match OrtGetApi rt ORT_API_VERSION m1 with
      | .error e => .error e
      | .ok (second, m2) => .ok ((first, second), m2)

end Observations

/-! ## Concrete libraries

Small native libraries on which the bridge is evaluated. -/

/-- State of the concrete libraries: pointer-sized cells and bytes of memory
(latest write first), handles released (with the kind of the release entry),
settings stored (with the kind of the setter), and a counter. -/
structure World where
  cells : List (Ptr × Ptr)
  bytes : List (Ptr × Nat)
  freed : List (Nat × Ptr)
  config : List (Nat × Ptr × Int)
  next : Nat
  deriving DecidableEq, Repr

/-- Handle stored in the cell at `p`, `NULL` when never written. -/
def World.loadPtr (w : World) (p : Ptr) : Ptr :=
  (w.cells.lookup p).getD 0

/-- Byte stored at `p`, `0` when never written. -/
def World.loadByte (w : World) (p : Ptr) : Nat :=
  (w.bytes.lookup p).getD 0

/-- Write handle `v` into the cell at `p`. -/
def World.storePtr (w : World) (p v : Ptr) : World :=
  ⟨(p, v) :: w.cells, w.bytes, w.freed, w.config, w.next⟩

/-- Record the release of handle `h` by the release entry of kind `k`. -/
def World.free (w : World) (k : Nat) (h : Ptr) : World :=
  ⟨w.cells, w.bytes, (k, h) :: w.freed, w.config, w.next⟩

/-- Record setting `v` of kind `k` on the options object `o`. -/
def World.set (w : World) (k : Nat) (o : Ptr) (v : Int) : World :=
  ⟨w.cells, w.bytes, w.freed, (k, o, v) :: w.config, w.next⟩

/-- Hand out a fresh handle into the cell at `slot`. -/
def World.fresh (w : World) (slot : Ptr) : World :=
  ⟨(slot, 1000 + w.next) :: w.cells, w.bytes, w.freed, w.config, w.next + 1⟩

/-- Reading the memory of a `World`. -/
def worldMem : Memory World :=
  ⟨World.loadPtr, World.loadByte⟩

/-- Initial state: the text "no such file" of an error message starts at
address 500 (first byte `n`), an empty string sits at address 600. -/
def world0 : World :=
  ⟨[], [(500, 110), (501, 111), (502, 0), (600, 0)], [], [], 0⟩

/-- A library that honours the contracts of the specification: constructors
return a null status and fill the slot, except `CreateSession` with a null
model path and the setters with a negative value, which return the non-null
status 900; the message of every status is the string at address 500. -/
def demoApi : OrtApi World where
  ReleaseStatus := some fun h w => w.free 1 h
  GetErrorMessage := some fun _ w => (500, w)
  CreateEnv := some fun _ _ env w => (0, w.fresh env)
  ReleaseEnv := some fun h w => w.free 2 h
  CreateSessionOptions := some fun opts w => (0, w.fresh opts)
  ReleaseSessionOptions := some fun h w => w.free 3 h
  SetIntraOpNumThreads := some fun o n w => if n < 0 then (900, w) else (0, w.set 1 o n)
  SetInterOpNumThreads := some fun o n w => if n < 0 then (900, w) else (0, w.set 2 o n)
  SetSessionGraphOptimizationLevel :=
    some fun o n w => if n < 0 then (900, w) else (0, w.set 3 o n)
  CreateSession :=
    some fun _ model_path _ session w => if model_path = 0 then (900, w) else (0, w.fresh session)
  ReleaseSession := some fun h w => w.free 4 h
  CreateCpuMemoryInfo := some fun _ _ minfo w => (0, w.fresh minfo)
  ReleaseMemoryInfo := some fun h w => w.free 5 h
  CreateTensorWithDataAsOrtValue := some fun _ _ _ _ _ _ value w => (0, w.fresh value)
  ReleaseValue := some fun h w => w.free 6 h
  Run := some fun _ _ _ _ _ _ _ outputs w => (0, w.fresh outputs)
  GetTensorMutableData := some fun value data w => (0, w.storePtr data (value + 1))

/-- The API base of the concrete libraries: versions up to 17 are served by
the table at address 16, later ones by no table. -/
def demoBase : OrtApiBase World :=
  ⟨some fun version w => (if version ≤ 17 then 16 else 0, w)⟩

/-- The library `demoApi` linked in: base at address 8, table at address 16. -/
def demoRt : Runtime World where
  OrtGetApiBase := fun w => (8, w)
  baseAt := fun p => if p = 8 then some demoBase else none
  apiAt := fun p => if p = 16 then some demoApi else none

/-- A library whose `CreateEnv` reports success without writing the slot. -/
def lazyApi : OrtApi World :=
  { demoApi with CreateEnv := some fun _ _ _ w => (0, w) }

/-- The library `lazyApi` linked in. -/
def lazyRt : Runtime World where
  OrtGetApiBase := fun w => (8, w)
  baseAt := fun p => if p = 8 then some demoBase else none
  apiAt := fun p => if p = 16 then some lazyApi else none

/-- A library whose statuses carry the empty message at address 600. -/
def muteApi : OrtApi World :=
  { demoApi with GetErrorMessage := some fun _ w => (600, w) }

/-- The library `muteApi` linked in. -/
def muteRt : Runtime World where
  OrtGetApiBase := fun w => (8, w)
  baseAt := fun p => if p = 8 then some demoBase else none
  apiAt := fun p => if p = 16 then some muteApi else none

/-- An API base whose `GetApi` builds a new table address on every call. -/
def freshBase : OrtApiBase World :=
  ⟨some fun _ w => (16 + 16 * w.next, ⟨w.cells, w.bytes, w.freed, w.config, w.next + 1⟩)⟩

/-- The base `freshBase` linked in; every table address it gives out holds
`demoApi`. -/
def freshRt : Runtime World where
  OrtGetApiBase := fun w => (8, w)
  baseAt := fun p => if p = 8 then some freshBase else none
  apiAt := fun p => if p % 16 = 0 then some demoApi else none

/-- Machine state at start: `world0` and an empty trace. -/
def mach0 : Mach World :=
  ⟨world0, []⟩

/-! ## The calling mechanism -/

section Mechanism

variable {σ α : Type}

/-- Reading through a pointer that holds a table continues with that table. -/
theorem viaApi_ok (rt : Runtime σ) (api : Ptr) (t : OrtApi σ) (k : OrtApi σ → Exec σ α)
    (m : Mach σ) (hapi : deref rt.apiAt api = some t) : viaApi rt api k m = k t m := by
  simp [viaApi, hapi]

/-- Reading a table through `NULL` faults, whatever the continuation. -/
theorem viaApi_null (rt : Runtime σ) (k : OrtApi σ → Exec σ α) (m : Mach σ) :
    viaApi rt 0 k m = .error .nullTable := by
  simp [viaApi, deref]

/-- A call through a callable entry returns its value, leaves its state and
appends its record. -/
theorem callEntry_some (c : Call) (f : σ → α × σ) (m : Mach σ) :
    callEntry c (some f) m = .ok ((f m.lib).1, ⟨(f m.lib).2, m.trace ++ [c]⟩) :=
  rfl

/-- A non-null pointer to a table can be read. -/
theorem deref_of_ne_zero {τ : Type} (heap : Ptr → Option τ) (p : Ptr) (x : τ)
    (hp : p ≠ 0) (hx : heap p = some x) : deref heap p = some x := by
  simp [deref, hp, hx]

/-- Mapping over a returned outcome. -/
theorem map_ok {β γ : Type} (g : β → γ) (x : β) :
    Except.map g (Except.ok x : Except Fault β) = .ok (g x) :=
  rfl

/-- The accessor, when `OrtGetApiBase()` returns a pointer to a base whose
`GetApi` is callable: both calls are made and the result of `GetApi` returned. -/
theorem OrtGetApi_ok (rt : Runtime σ) (ORT_API_VERSION : Nat) (base : OrtApiBase σ)
    (g : Nat → σ → Ptr × σ) (m : Mach σ)
    (hbase : deref rt.baseAt (rt.OrtGetApiBase m.lib).1 = some base)
    (hg : base.GetApi = some g) :
    OrtGetApi rt ORT_API_VERSION m
      = .ok ((g ORT_API_VERSION (rt.OrtGetApiBase m.lib).2).1,
          ⟨(g ORT_API_VERSION (rt.OrtGetApiBase m.lib).2).2,
            m.trace ++ [Call.OrtGetApiBase] ++ [Call.GetApi ORT_API_VERSION]⟩) := by
  simp only [OrtGetApi, hbase, hg, Option.map_some', callEntry_some]

end Mechanism

/-! ## Properties of the bridge -/

section Properties

variable {σ : Type}

/-- C1: with `api` pointing to table `t`, each status- or pointer-returning
bridge function returns exactly the value that the entry of the same name of
`t` returns on the same arguments, in the same order, in the current state of
the library; so the status is null exactly when the entry's status is, and it
is the same handle. -/
theorem bridge_returns_entry_value (rt : Runtime σ) (api : Ptr) (t : OrtApi σ)
    (hapi : deref rt.apiAt api = some t) :
    (∀ f, t.GetErrorMessage = some f → ∀ status m,
      (OrtApiGetErrorMessage rt api status m).map Prod.fst = .ok (f status m.lib).1) ∧
    (∀ f, t.CreateEnv = some f → ∀ log_level log_id env m,
      (OrtApiCreateEnv rt api log_level log_id env m).map Prod.fst
        = .ok (f log_level log_id env m.lib).1) ∧
    (∀ f, t.CreateSessionOptions = some f → ∀ opts m,
      (OrtApiCreateSessionOptions rt api opts m).map Prod.fst = .ok (f opts m.lib).1) ∧
    (∀ f, t.SetIntraOpNumThreads = some f → ∀ opts n m,
      (OrtApiSetIntraOpNumThreads rt api opts n m).map Prod.fst = .ok (f opts n m.lib).1) ∧
    (∀ f, t.SetInterOpNumThreads = some f → ∀ opts n m,
      (OrtApiSetInterOpNumThreads rt api opts n m).map Prod.fst = .ok (f opts n m.lib).1) ∧
    (∀ f, t.SetSessionGraphOptimizationLevel = some f → ∀ opts level m,
      (OrtApiSetSessionGraphOptimizationLevel rt api opts level m).map Prod.fst
        = .ok (f opts level m.lib).1) ∧
    (∀ f, t.CreateSession = some f → ∀ env model_path opts session m,
      (OrtApiCreateSession rt api env model_path opts session m).map Prod.fst
        = .ok (f env model_path opts session m.lib).1) ∧
    (∀ f, t.CreateCpuMemoryInfo = some f → ∀ alloc_type mem_type minfo m,
      (OrtApiCreateCpuMemoryInfo rt api alloc_type mem_type minfo m).map Prod.fst
        = .ok (f alloc_type mem_type minfo m.lib).1) ∧
    (∀ f, t.CreateTensorWithDataAsOrtValue = some f →
      ∀ minfo data data_len shape shape_len data_type value m,
      (OrtApiCreateTensorWithDataAsOrtValue rt api minfo data data_len shape shape_len
          data_type value m).map Prod.fst
        = .ok (f minfo data data_len shape shape_len data_type value m.lib).1) ∧
    (∀ f, t.Run = some f →
      ∀ session run_options input_names inputs inputs_len output_names output_names_len
        outputs m,
      (OrtApiRun rt api session run_options input_names inputs inputs_len output_names
          output_names_len outputs m).map Prod.fst
        = .ok (f session run_options input_names inputs inputs_len output_names
            output_names_len outputs m.lib).1) ∧
    (∀ f, t.GetTensorMutableData = some f → ∀ value data m,
      (OrtApiGetTensorMutableData rt api value data m).map Prod.fst
        = .ok (f value data m.lib).1) := by
  refine ⟨?_, ?_, ?_, ?_, ?_, ?_, ?_, ?_, ?_, ?_, ?_⟩ <;> intro f hf <;> intros <;>
    simp only [OrtApiGetErrorMessage, OrtApiCreateEnv, OrtApiCreateSessionOptions,
      OrtApiSetIntraOpNumThreads, OrtApiSetInterOpNumThreads,
      OrtApiSetSessionGraphOptimizationLevel, OrtApiCreateSession, OrtApiCreateCpuMemoryInfo,
      OrtApiCreateTensorWithDataAsOrtValue, OrtApiRun, OrtApiGetTensorMutableData,
      viaApi_ok _ _ _ _ _ hapi, hf, Option.map_some', callEntry_some, map_ok]

/-- C1 on the library `demoApi`: an accepted and a rejected thread count, a
missing model path and the message of status 900. -/
theorem bridge_returns_entry_value_witness :
    (OrtApiGetErrorMessage demoRt 16 900 mach0).map Prod.fst = .ok 500 ∧
    (OrtApiSetIntraOpNumThreads demoRt 16 40 1 mach0).map Prod.fst = .ok 0 ∧
    (OrtApiSetIntraOpNumThreads demoRt 16 40 (-3) mach0).map Prod.fst = .ok 900 ∧
    (OrtApiCreateSession demoRt 16 1000 0 40 48 mach0).map Prod.fst = .ok 900 :=
  have h := bridge_returns_entry_value demoRt 16 demoApi rfl
  ⟨h.1 _ rfl 900 mach0, h.2.2.2.1 _ rfl 40 1 mach0, h.2.2.2.1 _ rfl 40 (-3) mach0,
    h.2.2.2.2.2.2.1 _ rfl 1000 0 40 48 mach0⟩

/-- C2: with `api` pointing to table `t`, one call of any of the seventeen bridge
functions that take `api` returns with the trace extended by exactly one record,
that of the table entry of the same name with the arguments of the call; this
holds for every argument value and every entry behaviour, whatever status the
entry returns. -/
theorem bridge_call_appends_one_entry (rt : Runtime σ) (api : Ptr) (t : OrtApi σ)
    (hapi : deref rt.apiAt api = some t) :
    (∀ f, t.ReleaseStatus = some f → ∀ status m,
      (OrtApiReleaseStatus rt api status m).map (fun r => r.2.trace)
        = .ok (m.trace ++ [Call.ReleaseStatus status])) ∧
    (∀ f, t.GetErrorMessage = some f → ∀ status m,
      (OrtApiGetErrorMessage rt api status m).map (fun r => r.2.trace)
        = .ok (m.trace ++ [Call.GetErrorMessage status])) ∧
    (∀ f, t.CreateEnv = some f → ∀ log_level log_id env m,
      (OrtApiCreateEnv rt api log_level log_id env m).map (fun r => r.2.trace)
        = .ok (m.trace ++ [Call.CreateEnv log_level log_id env])) ∧
    (∀ f, t.ReleaseEnv = some f → ∀ env m,
      (OrtApiReleaseEnv rt api env m).map (fun r => r.2.trace)
        = .ok (m.trace ++ [Call.ReleaseEnv env])) ∧
    (∀ f, t.CreateSessionOptions = some f → ∀ opts m,
      (OrtApiCreateSessionOptions rt api opts m).map (fun r => r.2.trace)
        = .ok (m.trace ++ [Call.CreateSessionOptions opts])) ∧
    (∀ f, t.ReleaseSessionOptions = some f → ∀ opts m,
      (OrtApiReleaseSessionOptions rt api opts m).map (fun r => r.2.trace)
        = .ok (m.trace ++ [Call.ReleaseSessionOptions opts])) ∧
    (∀ f, t.SetIntraOpNumThreads = some f → ∀ opts n m,
      (OrtApiSetIntraOpNumThreads rt api opts n m).map (fun r => r.2.trace)
        = .ok (m.trace ++ [Call.SetIntraOpNumThreads opts n])) ∧
    (∀ f, t.SetInterOpNumThreads = some f → ∀ opts n m,
      (OrtApiSetInterOpNumThreads rt api opts n m).map (fun r => r.2.trace)
        = .ok (m.trace ++ [Call.SetInterOpNumThreads opts n])) ∧
    (∀ f, t.SetSessionGraphOptimizationLevel = some f → ∀ opts level m,
      (OrtApiSetSessionGraphOptimizationLevel rt api opts level m).map (fun r => r.2.trace)
        = .ok (m.trace ++ [Call.SetSessionGraphOptimizationLevel opts level])) ∧
    (∀ f, t.CreateSession = some f → ∀ env model_path opts session m,
      (OrtApiCreateSession rt api env model_path opts session m).map (fun r => r.2.trace)
        = .ok (m.trace ++ [Call.CreateSession env model_path opts session])) ∧
    (∀ f, t.ReleaseSession = some f → ∀ session m,
      (OrtApiReleaseSession rt api session m).map (fun r => r.2.trace)
        = .ok (m.trace ++ [Call.ReleaseSession session])) ∧
    (∀ f, t.CreateCpuMemoryInfo = some f → ∀ alloc_type mem_type minfo m,
      (OrtApiCreateCpuMemoryInfo rt api alloc_type mem_type minfo m).map (fun r => r.2.trace)
        = .ok (m.trace ++ [Call.CreateCpuMemoryInfo alloc_type mem_type minfo])) ∧
    (∀ f, t.ReleaseMemoryInfo = some f → ∀ minfo m,
      (OrtApiReleaseMemoryInfo rt api minfo m).map (fun r => r.2.trace)
        = .ok (m.trace ++ [Call.ReleaseMemoryInfo minfo])) ∧
    (∀ f, t.CreateTensorWithDataAsOrtValue = some f →
      ∀ minfo data data_len shape shape_len data_type value m,
      (OrtApiCreateTensorWithDataAsOrtValue rt api minfo data data_len shape shape_len
          data_type value m).map (fun r => r.2.trace)
        = .ok (m.trace ++
            [Call.CreateTensorWithDataAsOrtValue minfo data data_len shape shape_len
              data_type value])) ∧
    (∀ f, t.ReleaseValue = some f → ∀ value m,
      (OrtApiReleaseValue rt api value m).map (fun r => r.2.trace)
        = .ok (m.trace ++ [Call.ReleaseValue value])) ∧
    (∀ f, t.Run = some f →
      ∀ session run_options input_names inputs inputs_len output_names output_names_len
        outputs m,
      (OrtApiRun rt api session run_options input_names inputs inputs_len output_names
          output_names_len outputs m).map (fun r => r.2.trace)
        = .ok (m.trace ++
            [Call.Run session run_options input_names inputs inputs_len output_names
              output_names_len outputs])) ∧
    (∀ f, t.GetTensorMutableData = some f → ∀ value data m,
      (OrtApiGetTensorMutableData rt api value data m).map (fun r => r.2.trace)
        = .ok (m.trace ++ [Call.GetTensorMutableData value data])) := by
  refine ⟨?_, ?_, ?_, ?_, ?_, ?_, ?_, ?_, ?_, ?_, ?_, ?_, ?_, ?_, ?_, ?_, ?_⟩ <;>
    intro f hf <;> intros <;>
    simp only [OrtApiReleaseStatus, OrtApiGetErrorMessage, OrtApiCreateEnv, OrtApiReleaseEnv,
      OrtApiCreateSessionOptions, OrtApiReleaseSessionOptions, OrtApiSetIntraOpNumThreads,
      OrtApiSetInterOpNumThreads, OrtApiSetSessionGraphOptimizationLevel, OrtApiCreateSession,
      OrtApiReleaseSession, OrtApiCreateCpuMemoryInfo, OrtApiReleaseMemoryInfo,
      OrtApiCreateTensorWithDataAsOrtValue, OrtApiReleaseValue, OrtApiRun,
      OrtApiGetTensorMutableData, viaApi_ok _ _ _ _ _ hapi, hf, Option.map_some',
      callEntry_some, map_ok]

/-- C2 on the library `demoApi`: a negative thread count, a missing model path
and a zero data length each leave exactly one record, with a null status
(tensor creation) as with a non-null one (the other two). -/
theorem bridge_call_appends_one_entry_witness :
    (OrtApiSetIntraOpNumThreads demoRt 16 40 (-3) mach0).map (fun r => r.2.trace)
      = .ok [Call.SetIntraOpNumThreads 40 (-3)] ∧
    (OrtApiCreateSession demoRt 16 1000 0 40 48 mach0).map (fun r => r.2.trace)
      = .ok [Call.CreateSession 1000 0 40 48] ∧
    (OrtApiCreateTensorWithDataAsOrtValue demoRt 16 1003 0 0 72 2 1 56 mach0).map
        (fun r => r.2.trace)
      = .ok [Call.CreateTensorWithDataAsOrtValue 1003 0 0 72 2 1 56] :=
  have h := bridge_call_appends_one_entry demoRt 16 demoApi rfl
  ⟨h.2.2.2.2.2.2.1 _ rfl 40 (-3) mach0, h.2.2.2.2.2.2.2.2.2.1 _ rfl 1000 0 40 48 mach0,
    h.2.2.2.2.2.2.2.2.2.2.2.2.2.1 _ rfl 1003 0 0 72 2 1 56 mach0⟩

/-- C3: when `OrtGetApiBase()` returns a pointer to base `base` whose `GetApi` is
`g`, `OrtGetApi` returns exactly what `g` returns on `ORT_API_VERSION` in the
state `OrtGetApiBase` left, having made these two calls and no other; so a
null table from `g` is returned as null. -/
theorem OrtGetApi_returns_GetApi_result (rt : Runtime σ) (ORT_API_VERSION : Nat)
    (base : OrtApiBase σ) (g : Nat → σ → Ptr × σ) (m : Mach σ)
    (hbase : deref rt.baseAt (rt.OrtGetApiBase m.lib).1 = some base)
    (hg : base.GetApi = some g) :
    OrtGetApi rt ORT_API_VERSION m
      = .ok ((g ORT_API_VERSION (rt.OrtGetApiBase m.lib).2).1,
          ⟨(g ORT_API_VERSION (rt.OrtGetApiBase m.lib).2).2,
            m.trace ++ [Call.OrtGetApiBase] ++ [Call.GetApi ORT_API_VERSION]⟩) ∧
    ((g ORT_API_VERSION (rt.OrtGetApiBase m.lib).2).1 = 0 →
      (OrtGetApi rt ORT_API_VERSION m).map Prod.fst = .ok 0) := by
  have h := OrtGetApi_ok rt ORT_API_VERSION base g m hbase hg
  refine ⟨h, fun hz => ?_⟩
  rw [h, map_ok, hz]

/-- C3 on the library `demoRt`: version 17 is served by the table at address
16, version 18 by no table, and `OrtGetApi` returns null. -/
theorem OrtGetApi_returns_GetApi_result_witness :
    OrtGetApi demoRt 17 mach0
      = .ok (16, ⟨world0, [Call.OrtGetApiBase, Call.GetApi 17]⟩) ∧
    (OrtGetApi demoRt 18 mach0).map Prod.fst = .ok 0 :=
  ⟨(OrtGetApi_returns_GetApi_result demoRt 17 demoBase _ mach0 rfl rfl).1,
    (OrtGetApi_returns_GetApi_result demoRt 18 demoBase _ mach0 rfl rfl).2 rfl⟩

/-- C4, as stated, fails: on the base `freshBase`, whose `GetApi` builds a new
table address on every call, the two calls of `OrtGetApi` return the distinct
tables 16 and 32. -/
theorem OrtGetApi_twice_differs_on_freshBase :
    (OrtGetApiTwice freshRt 17 mach0).map Prod.fst = .ok (16, 32) ∧ (16 : Ptr) ≠ 32 :=
  ⟨rfl, by decide⟩

/-- C4, amended: when `OrtGetApiBase()` always returns a pointer to base `base`
and the table returned by its `GetApi` for `ORT_API_VERSION` does not depend on
the state of the library (singleton semantics of the underlying accessor), the
two calls of `OrtGetApi` return the identical table; the bridge keeps nothing
between the calls, each one calling `OrtGetApiBase` and `GetApi` again. -/
theorem OrtGetApi_twice_identical_of_singleton (rt : Runtime σ) (ORT_API_VERSION : Nat)
    (base : OrtApiBase σ) (g : Nat → σ → Ptr × σ) (m : Mach σ)
    (hbase : ∀ s, deref rt.baseAt (rt.OrtGetApiBase s).1 = some base)
    (hg : base.GetApi = some g)
    (hsingle : ∀ s s1, (g ORT_API_VERSION s).1 = (g ORT_API_VERSION s1).1) :
    ∃ m2, OrtGetApiTwice rt ORT_API_VERSION m
        = .ok (((g ORT_API_VERSION (rt.OrtGetApiBase m.lib).2).1,
                (g ORT_API_VERSION (rt.OrtGetApiBase m.lib).2).1), m2) ∧
      m2.trace = m.trace ++ [Call.OrtGetApiBase, Call.GetApi ORT_API_VERSION,
        Call.OrtGetApiBase, Call.GetApi ORT_API_VERSION] := by
  have h2 := fun m1 => OrtGetApi_ok rt ORT_API_VERSION base g m1 (hbase _) hg
  have e := hsingle (rt.OrtGetApiBase (g ORT_API_VERSION (rt.OrtGetApiBase m.lib).2).2).2
    (rt.OrtGetApiBase m.lib).2
  simp only [OrtGetApiTwice, h2, e]
  exact ⟨_, rfl, by simp⟩

/-- C4, amended, on the library `demoRt`, whose `GetApi` serves version 17 by
the table at address 16 in every state. -/
theorem OrtGetApi_twice_identical_of_singleton_witness :
    ∃ m2, OrtGetApiTwice demoRt 17 mach0 = .ok ((16, 16), m2) ∧
      m2.trace = [Call.OrtGetApiBase, Call.GetApi 17, Call.OrtGetApiBase, Call.GetApi 17] :=
  OrtGetApi_twice_identical_of_singleton demoRt 17 demoBase _ mach0
    (fun _ => rfl) rfl (fun _ _ => rfl)

/-- C5, as stated, fails: on the library `lazyApi`, `OrtApiCreateEnv` returns a
null status while the output slot at address 40 still holds `NULL`. -/
theorem OrtApiCreateEnv_null_status_empty_slot :
    (OrtApiCreateEnv lazyRt 16 2 0 40 mach0).map Prod.fst = .ok 0 ∧
    (OrtApiCreateEnv lazyRt 16 2 0 40 mach0).map (fun r => worldMem.loadPtr r.2.lib 40)
      = .ok 0 ∧
    ¬ SuccessFillsSlot worldMem 40 (OrtApiCreateEnv lazyRt 16 2 0 40 mach0) :=
  ⟨rfl, rfl, fun h => h rfl rfl⟩

/-- C5, amended: with `api` pointing to table `t`, each constructor function
passes its output slot to the entry of `t` unchanged and leaves the state of the
library, hence the content of the slot, exactly as the entry left it; so when
the entry honours the contract of the library at this call (a null status comes
with a non-null handle in the slot), a null status returned by the bridge comes
with a non-null handle in the slot. -/
theorem constructor_slot_is_entry_slot (mem : Memory σ) (rt : Runtime σ) (api : Ptr)
    (t : OrtApi σ) (hapi : deref rt.apiAt api = some t) :
    (∀ f, t.CreateEnv = some f → ∀ log_level log_id env m,
      (OrtApiCreateEnv rt api log_level log_id env m).map (fun r => r.2.lib)
        = .ok (f log_level log_id env m.lib).2 ∧
      (SlotContract mem env (f log_level log_id env m.lib) →
        SuccessFillsSlot mem env (OrtApiCreateEnv rt api log_level log_id env m))) ∧
    (∀ f, t.CreateSessionOptions = some f → ∀ opts m,
      (OrtApiCreateSessionOptions rt api opts m).map (fun r => r.2.lib)
        = .ok (f opts m.lib).2 ∧
      (SlotContract mem opts (f opts m.lib) →
        SuccessFillsSlot mem opts (OrtApiCreateSessionOptions rt api opts m))) ∧
    (∀ f, t.CreateSession = some f → ∀ env model_path opts session m,
      (OrtApiCreateSession rt api env model_path opts session m).map (fun r => r.2.lib)
        = .ok (f env model_path opts session m.lib).2 ∧
      (SlotContract mem session (f env model_path opts session m.lib) →
        SuccessFillsSlot mem session
          (OrtApiCreateSession rt api env model_path opts session m))) ∧
    (∀ f, t.CreateCpuMemoryInfo = some f → ∀ alloc_type mem_type minfo m,
      (OrtApiCreateCpuMemoryInfo rt api alloc_type mem_type minfo m).map (fun r => r.2.lib)
        = .ok (f alloc_type mem_type minfo m.lib).2 ∧
      (SlotContract mem minfo (f alloc_type mem_type minfo m.lib) →
        SuccessFillsSlot mem minfo
          (OrtApiCreateCpuMemoryInfo rt api alloc_type mem_type minfo m))) ∧
    (∀ f, t.CreateTensorWithDataAsOrtValue = some f →
      ∀ minfo data data_len shape shape_len data_type value m,
      (OrtApiCreateTensorWithDataAsOrtValue rt api minfo data data_len shape shape_len
          data_type value m).map (fun r => r.2.lib)
        = .ok (f minfo data data_len shape shape_len data_type value m.lib).2 ∧
      (SlotContract mem value (f minfo data data_len shape shape_len data_type value m.lib) →
        SuccessFillsSlot mem value
          (OrtApiCreateTensorWithDataAsOrtValue rt api minfo data data_len shape shape_len
            data_type value m))) := by
  refine ⟨?_, ?_, ?_, ?_, ?_⟩ <;> intro f hf <;> intros <;>
    simp only [OrtApiCreateEnv, OrtApiCreateSessionOptions, OrtApiCreateSession,
      OrtApiCreateCpuMemoryInfo, OrtApiCreateTensorWithDataAsOrtValue,
      viaApi_ok _ _ _ _ _ hapi, hf, Option.map_some', callEntry_some, map_ok,
      SuccessFillsSlot, SlotContract] <;>
    exact ⟨trivial, fun h => h⟩

/-- C5, amended, on the library `demoApi`: session creation with a model path
returns a null status and leaves handle 1000 in the slot at address 48. -/
theorem constructor_slot_is_entry_slot_witness :
    (OrtApiCreateSession demoRt 16 1000 4 40 48 mach0).map (fun r => r.2.lib)
      = .ok (world0.fresh 48) ∧
    SuccessFillsSlot worldMem 48 (OrtApiCreateSession demoRt 16 1000 4 40 48 mach0) :=
  have h := (constructor_slot_is_entry_slot worldMem demoRt 16 demoApi rfl).2.2.1 _ rfl
    1000 4 40 48 mach0
  ⟨h.1, h.2 (fun _ => by decide)⟩

/-- C6, as stated, fails: on the library `muteApi`, `OrtApiCreateSession` with a
null model path returns the non-null status 900, and `OrtApiGetErrorMessage` on
that status returns address 600, where an empty string sits. -/
theorem OrtApiCreateSession_failure_empty_message :
    (OrtApiCreateSession muteRt 16 1000 0 40 48 mach0).map Prod.fst = .ok 900 ∧
    (OrtApiGetErrorMessage muteRt 16 900 mach0).map
        (fun r => (r.1, worldMem.loadByte r.2.lib r.1)) = .ok (600, 0) ∧
    ¬ FailureHasMessage worldMem muteRt 16 (OrtApiCreateSession muteRt 16 1000 0 40 48 mach0) :=
  ⟨rfl, rfl, fun h => (h (by decide)).2 rfl⟩

/-- C6, amended: with `api` pointing to table `t` whose `GetErrorMessage` is `g`,
`OrtApiGetErrorMessage` returns the very pointer `g` returns; so when `g` honours
the contract of the library on the status a constructor entry returned (a
non-null status has a non-empty message), `OrtApiGetErrorMessage` applied to a
non-null status returned by the constructor function returns a non-empty
string. -/
theorem constructor_failure_message_is_entry_message (mem : Memory σ) (rt : Runtime σ)
    (api : Ptr) (t : OrtApi σ) (g : Ptr → σ → Ptr × σ)
    (hapi : deref rt.apiAt api = some t) (hg : t.GetErrorMessage = some g) :
    (∀ status m,
      (OrtApiGetErrorMessage rt api status m).map Prod.fst = .ok (g status m.lib).1) ∧
    (∀ f, t.CreateEnv = some f → ∀ log_level log_id env m,
      MessageContract mem g (f log_level log_id env m.lib) →
        FailureHasMessage mem rt api (OrtApiCreateEnv rt api log_level log_id env m)) ∧
    (∀ f, t.CreateSessionOptions = some f → ∀ opts m,
      MessageContract mem g (f opts m.lib) →
        FailureHasMessage mem rt api (OrtApiCreateSessionOptions rt api opts m)) ∧
    (∀ f, t.CreateSession = some f → ∀ env model_path opts session m,
      MessageContract mem g (f env model_path opts session m.lib) →
        FailureHasMessage mem rt api
          (OrtApiCreateSession rt api env model_path opts session m)) ∧
    (∀ f, t.CreateCpuMemoryInfo = some f → ∀ alloc_type mem_type minfo m,
      MessageContract mem g (f alloc_type mem_type minfo m.lib) →
        FailureHasMessage mem rt api
          (OrtApiCreateCpuMemoryInfo rt api alloc_type mem_type minfo m)) ∧
    (∀ f, t.CreateTensorWithDataAsOrtValue = some f →
      ∀ minfo data data_len shape shape_len data_type value m,
      MessageContract mem g (f minfo data data_len shape shape_len data_type value m.lib) →
        FailureHasMessage mem rt api
          (OrtApiCreateTensorWithDataAsOrtValue rt api minfo data data_len shape shape_len
            data_type value m)) := by
  refine ⟨?_, ?_, ?_, ?_, ?_, ?_⟩
  · intro status m
    simp only [OrtApiGetErrorMessage, viaApi_ok _ _ _ _ _ hapi, hg, Option.map_some',
      callEntry_some, map_ok]
  all_goals
    intro f hf
    intros
    simp only [OrtApiCreateEnv, OrtApiCreateSessionOptions, OrtApiCreateSession,
      OrtApiCreateCpuMemoryInfo, OrtApiCreateTensorWithDataAsOrtValue, OrtApiGetErrorMessage,
      viaApi_ok _ _ _ _ _ hapi, hf, hg, Option.map_some', callEntry_some,
      FailureHasMessage]
    assumption

/-- C6, amended, on the library `demoApi`: session creation with a null model
path returns status 900, whose message at address 500 is not empty. -/
theorem constructor_failure_message_is_entry_message_witness :
    (OrtApiGetErrorMessage demoRt 16 900 mach0).map Prod.fst = .ok 500 ∧
    FailureHasMessage worldMem demoRt 16 (OrtApiCreateSession demoRt 16 1000 0 40 48 mach0) :=
  have h := constructor_failure_message_is_entry_message worldMem demoRt 16 demoApi _ rfl rfl
  ⟨h.1 900 mach0, h.2.2.2.1 _ rfl 1000 0 40 48 mach0 (fun _ => ⟨by decide, by decide⟩)⟩

/-- C7: with `api` pointing to table `t`, each destructor of the bridge, for every
handle (`NULL` included), calls once the release entry of `t` for its own kind of
handle on that same handle, leaves the state that entry leaves and returns the
unit value; the six records are pairwise distinct, no two destructors sharing
an entry. -/
theorem destructor_calls_own_release_entry (rt : Runtime σ) (api : Ptr) (t : OrtApi σ)
    (hapi : deref rt.apiAt api = some t) :
    (∀ f, t.ReleaseStatus = some f → ∀ status m,
      OrtApiReleaseStatus rt api status m
        = .ok ((), ⟨f status m.lib, m.trace ++ [Call.ReleaseStatus status]⟩)) ∧
    (∀ f, t.ReleaseEnv = some f → ∀ env m,
      OrtApiReleaseEnv rt api env m
        = .ok ((), ⟨f env m.lib, m.trace ++ [Call.ReleaseEnv env]⟩)) ∧
    (∀ f, t.ReleaseSessionOptions = some f → ∀ opts m,
      OrtApiReleaseSessionOptions rt api opts m
        = .ok ((), ⟨f opts m.lib, m.trace ++ [Call.ReleaseSessionOptions opts]⟩)) ∧
    (∀ f, t.ReleaseSession = some f → ∀ session m,
      OrtApiReleaseSession rt api session m
        = .ok ((), ⟨f session m.lib, m.trace ++ [Call.ReleaseSession session]⟩)) ∧
    (∀ f, t.ReleaseMemoryInfo = some f → ∀ minfo m,
      OrtApiReleaseMemoryInfo rt api minfo m
        = .ok ((), ⟨f minfo m.lib, m.trace ++ [Call.ReleaseMemoryInfo minfo]⟩)) ∧
    (∀ f, t.ReleaseValue = some f → ∀ value m,
      OrtApiReleaseValue rt api value m
        = .ok ((), ⟨f value m.lib, m.trace ++ [Call.ReleaseValue value]⟩)) ∧
    (∀ h : Ptr, [Call.ReleaseStatus h, Call.ReleaseEnv h, Call.ReleaseSessionOptions h,
      Call.ReleaseSession h, Call.ReleaseMemoryInfo h, Call.ReleaseValue h].Nodup) := by
  refine ⟨?_, ?_, ?_, ?_, ?_, ?_, ?_⟩
  case refine_7 => intro h; simp
  all_goals
    intro f hf
    intros
    simp only [OrtApiReleaseStatus, OrtApiReleaseEnv, OrtApiReleaseSessionOptions,
      OrtApiReleaseSession, OrtApiReleaseMemoryInfo, OrtApiReleaseValue,
      viaApi_ok _ _ _ _ _ hapi, hf, Option.map_some', callEntry_some, voidEntry]

/-- C7 on the library `demoApi`: releasing the null session handle calls
`ReleaseSession` (kind 4) on `NULL`, releasing value 1005 calls `ReleaseValue`
(kind 6) on 1005. -/
theorem destructor_calls_own_release_entry_witness :
    OrtApiReleaseSession demoRt 16 0 mach0
      = .ok ((), ⟨world0.free 4 0, [Call.ReleaseSession 0]⟩) ∧
    OrtApiReleaseValue demoRt 16 1005 mach0
      = .ok ((), ⟨world0.free 6 1005, [Call.ReleaseValue 1005]⟩) :=
  have h := destructor_calls_own_release_entry demoRt 16 demoApi rfl
  ⟨h.2.2.2.1 _ rfl 0 mach0, h.2.2.2.2.2.1 _ rfl 1005 mach0⟩

/-- C8: with `api` pointing to a table whose `Run` is `f`, `OrtApiRun` calls `f`
once on `session`, `run_options`, `input_names`, `inputs`, `inputs_len`,
`output_names`, `output_names_len` and `outputs`, in that order and unchanged
(the one `inputs_len` standing for the length of both input arrays), and returns
its status and state; this holds for every value of the two lengths, no
relation between them or with the arrays being required. -/
theorem OrtApiRun_forwards_to_Run (rt : Runtime σ) (api : Ptr) (t : OrtApi σ)
    (f : Ptr → Ptr → Ptr → Ptr → Nat → Ptr → Nat → Ptr → σ → Ptr × σ)
    (hapi : deref rt.apiAt api = some t) (hf : t.Run = some f)
    (session run_options input_names inputs : Ptr) (inputs_len : Nat) (output_names : Ptr)
    (output_names_len : Nat) (outputs : Ptr) (m : Mach σ) :
    OrtApiRun rt api session run_options input_names inputs inputs_len output_names
        output_names_len outputs m
      = .ok ((f session run_options input_names inputs inputs_len output_names
              output_names_len outputs m.lib).1,
          ⟨(f session run_options input_names inputs inputs_len output_names
              output_names_len outputs m.lib).2,
            m.trace ++ [Call.Run session run_options input_names inputs inputs_len
              output_names output_names_len outputs]⟩) := by
  simp only [OrtApiRun, viaApi_ok _ _ _ _ _ hapi, hf, Option.map_some', callEntry_some]

/-- C8 on the library `demoApi`: three inputs announced with no input array at
all and two outputs requested; `Run` is called all the same. -/
theorem OrtApiRun_forwards_to_Run_witness :
    OrtApiRun demoRt 16 1002 0 0 0 3 80 2 88 mach0
      = .ok (0, ⟨world0.fresh 88, [Call.Run 1002 0 0 0 3 80 2 88]⟩) :=
  OrtApiRun_forwards_to_Run demoRt 16 demoApi _ rfl rfl 1002 0 0 0 3 80 2 88 mach0

/-- C9: with `api` pointing to table `t`, each configuration setter calls once
the entry of `t` of its own name on the same options handle and the same scalar,
for every integer, and returns the status and the state of that entry; the
records of the three setters on equal arguments are pairwise distinct. -/
theorem setter_forwards_to_own_entry (rt : Runtime σ) (api : Ptr) (t : OrtApi σ)
    (hapi : deref rt.apiAt api = some t) :
    (∀ f, t.SetIntraOpNumThreads = some f → ∀ opts (n : Int) m,
      OrtApiSetIntraOpNumThreads rt api opts n m
        = .ok ((f opts n m.lib).1,
            ⟨(f opts n m.lib).2, m.trace ++ [Call.SetIntraOpNumThreads opts n]⟩)) ∧
    (∀ f, t.SetInterOpNumThreads = some f → ∀ opts (n : Int) m,
      OrtApiSetInterOpNumThreads rt api opts n m
        = .ok ((f opts n m.lib).1,
            ⟨(f opts n m.lib).2, m.trace ++ [Call.SetInterOpNumThreads opts n]⟩)) ∧
    (∀ f, t.SetSessionGraphOptimizationLevel = some f → ∀ opts (level : Int) m,
      OrtApiSetSessionGraphOptimizationLevel rt api opts level m
        = .ok ((f opts level m.lib).1,
            ⟨(f opts level m.lib).2,
              m.trace ++ [Call.SetSessionGraphOptimizationLevel opts level]⟩)) ∧
    (∀ (opts : Ptr) (n : Int), [Call.SetIntraOpNumThreads opts n,
      Call.SetInterOpNumThreads opts n, Call.SetSessionGraphOptimizationLevel opts n].Nodup) := by
  refine ⟨?_, ?_, ?_, ?_⟩
  case refine_4 => intro opts n; simp
  all_goals
    intro f hf
    intros
    simp only [OrtApiSetIntraOpNumThreads, OrtApiSetInterOpNumThreads,
      OrtApiSetSessionGraphOptimizationLevel, viaApi_ok _ _ _ _ _ hapi, hf,
      Option.map_some', callEntry_some]

/-- C9 on the library `demoApi`: zero intra-op threads are stored under kind 1,
a negative inter-op count is rejected with status 900 by `SetInterOpNumThreads`,
level 99 is stored under kind 3. -/
theorem setter_forwards_to_own_entry_witness :
    OrtApiSetIntraOpNumThreads demoRt 16 1001 0 mach0
      = .ok (0, ⟨world0.set 1 1001 0, [Call.SetIntraOpNumThreads 1001 0]⟩) ∧
    OrtApiSetInterOpNumThreads demoRt 16 1001 (-1) mach0
      = .ok (900, ⟨world0, [Call.SetInterOpNumThreads 1001 (-1)]⟩) ∧
    OrtApiSetSessionGraphOptimizationLevel demoRt 16 1001 99 mach0
      = .ok (0, ⟨world0.set 3 1001 99, [Call.SetSessionGraphOptimizationLevel 1001 99]⟩) :=
  have h := setter_forwards_to_own_entry demoRt 16 demoApi rfl
  ⟨h.1 _ rfl 1001 0 mach0, h.2.1 _ rfl 1001 (-1) mach0, h.2.2.1 _ rfl 1001 99 mach0⟩

/-- C10: with a non-null `api` pointing to table `t`, each of the seventeen bridge
functions that take `api` returns from its delegated call as soon as the entry it
needs is callable, for every value of its other arguments, null handles
included; with a null `api`, each of them faults on reading the table, for
every value of its other arguments and whatever the library holds. -/
theorem bridge_dereferences_only_api (rt : Runtime σ) (api : Ptr) (t : OrtApi σ)
    (hnz : api ≠ 0) (ht : rt.apiAt api = some t) :
    (∀ f, t.ReleaseStatus = some f → ∀ status m,
      ∃ r, OrtApiReleaseStatus rt api status m = .ok r) ∧
    (∀ f, t.GetErrorMessage = some f → ∀ status m,
      ∃ r, OrtApiGetErrorMessage rt api status m = .ok r) ∧
    (∀ f, t.CreateEnv = some f → ∀ log_level log_id env m,
      ∃ r, OrtApiCreateEnv rt api log_level log_id env m = .ok r) ∧
    (∀ f, t.ReleaseEnv = some f → ∀ env m,
      ∃ r, OrtApiReleaseEnv rt api env m = .ok r) ∧
    (∀ f, t.CreateSessionOptions = some f → ∀ opts m,
      ∃ r, OrtApiCreateSessionOptions rt api opts m = .ok r) ∧
    (∀ f, t.ReleaseSessionOptions = some f → ∀ opts m,
      ∃ r, OrtApiReleaseSessionOptions rt api opts m = .ok r) ∧
    (∀ f, t.SetIntraOpNumThreads = some f → ∀ opts n m,
      ∃ r, OrtApiSetIntraOpNumThreads rt api opts n m = .ok r) ∧
    (∀ f, t.SetInterOpNumThreads = some f → ∀ opts n m,
      ∃ r, OrtApiSetInterOpNumThreads rt api opts n m = .ok r) ∧
    (∀ f, t.SetSessionGraphOptimizationLevel = some f → ∀ opts level m,
      ∃ r, OrtApiSetSessionGraphOptimizationLevel rt api opts level m = .ok r) ∧
    (∀ f, t.CreateSession = some f → ∀ env model_path opts session m,
      ∃ r, OrtApiCreateSession rt api env model_path opts session m = .ok r) ∧
    (∀ f, t.ReleaseSession = some f → ∀ session m,
      ∃ r, OrtApiReleaseSession rt api session m = .ok r) ∧
    (∀ f, t.CreateCpuMemoryInfo = some f → ∀ alloc_type mem_type minfo m,
      ∃ r, OrtApiCreateCpuMemoryInfo rt api alloc_type mem_type minfo m = .ok r) ∧
    (∀ f, t.ReleaseMemoryInfo = some f → ∀ minfo m,
      ∃ r, OrtApiReleaseMemoryInfo rt api minfo m = .ok r) ∧
    (∀ f, t.CreateTensorWithDataAsOrtValue = some f →
      ∀ minfo data data_len shape shape_len data_type value m,
      ∃ r, OrtApiCreateTensorWithDataAsOrtValue rt api minfo data data_len shape
          shape_len data_type value m = .ok r) ∧
    (∀ f, t.ReleaseValue = some f → ∀ value m,
      ∃ r, OrtApiReleaseValue rt api value m = .ok r) ∧
    (∀ f, t.Run = some f →
      ∀ session run_options input_names inputs inputs_len output_names output_names_len outputs m,
      ∃ r, OrtApiRun rt api session run_options input_names inputs
          inputs_len output_names output_names_len outputs m = .ok r) ∧
    (∀ f, t.GetTensorMutableData = some f → ∀ value data m,
      ∃ r, OrtApiGetTensorMutableData rt api value data m = .ok r) ∧
    (∀ status m,
      OrtApiReleaseStatus rt 0 status m = .error .nullTable) ∧
    (∀ status m,
      OrtApiGetErrorMessage rt 0 status m = .error .nullTable) ∧
    (∀ log_level log_id env m,
      OrtApiCreateEnv rt 0 log_level log_id env m = .error .nullTable) ∧
    (∀ env m,
      OrtApiReleaseEnv rt 0 env m = .error .nullTable) ∧
    (∀ opts m,
      OrtApiCreateSessionOptions rt 0 opts m = .error .nullTable) ∧
    (∀ opts m,
      OrtApiReleaseSessionOptions rt 0 opts m = .error .nullTable) ∧
    (∀ opts n m,
      OrtApiSetIntraOpNumThreads rt 0 opts n m = .error .nullTable) ∧
    (∀ opts n m,
      OrtApiSetInterOpNumThreads rt 0 opts n m = .error .nullTable) ∧
    (∀ opts level m,
      OrtApiSetSessionGraphOptimizationLevel rt 0 opts level m = .error .nullTable) ∧
    (∀ env model_path opts session m,
      OrtApiCreateSession rt 0 env model_path opts session m = .error .nullTable) ∧
    (∀ session m,
      OrtApiReleaseSession rt 0 session m = .error .nullTable) ∧
    (∀ alloc_type mem_type minfo m,
      OrtApiCreateCpuMemoryInfo rt 0 alloc_type mem_type minfo m = .error .nullTable) ∧
    (∀ minfo m,
      OrtApiReleaseMemoryInfo rt 0 minfo m = .error .nullTable) ∧
    (∀ minfo data data_len shape shape_len data_type value m,
      OrtApiCreateTensorWithDataAsOrtValue rt 0 minfo data data_len shape
          shape_len data_type value m = .error .nullTable) ∧
    (∀ value m,
      OrtApiReleaseValue rt 0 value m = .error .nullTable) ∧
    (∀ session run_options input_names inputs inputs_len output_names output_names_len outputs m,
      OrtApiRun rt 0 session run_options input_names inputs
          inputs_len output_names output_names_len outputs m = .error .nullTable) ∧
    (∀ value data m,
      OrtApiGetTensorMutableData rt 0 value data m = .error .nullTable) := by
  have hapi := deref_of_ne_zero rt.apiAt api t hnz ht
  refine ⟨?_, ?_, ?_, ?_, ?_, ?_, ?_, ?_, ?_, ?_, ?_, ?_, ?_, ?_, ?_, ?_, ?_,
    ?_, ?_, ?_, ?_, ?_, ?_, ?_, ?_, ?_, ?_, ?_, ?_, ?_, ?_, ?_, ?_, ?_⟩
  iterate 17
    intro f hf
    intros
    simp only [
      OrtApiReleaseStatus, OrtApiGetErrorMessage, OrtApiCreateEnv, OrtApiReleaseEnv,
      OrtApiCreateSessionOptions, OrtApiReleaseSessionOptions, OrtApiSetIntraOpNumThreads,
      OrtApiSetInterOpNumThreads, OrtApiSetSessionGraphOptimizationLevel, OrtApiCreateSession,
      OrtApiReleaseSession, OrtApiCreateCpuMemoryInfo, OrtApiReleaseMemoryInfo,
      OrtApiCreateTensorWithDataAsOrtValue, OrtApiReleaseValue, OrtApiRun,
      OrtApiGetTensorMutableData,
      viaApi_ok _ _ _ _ _ hapi, hf, Option.map_some', callEntry_some]
    exact ⟨_, rfl⟩
  all_goals
    intros
    simp only [
      OrtApiReleaseStatus, OrtApiGetErrorMessage, OrtApiCreateEnv, OrtApiReleaseEnv,
      OrtApiCreateSessionOptions, OrtApiReleaseSessionOptions, OrtApiSetIntraOpNumThreads,
      OrtApiSetInterOpNumThreads, OrtApiSetSessionGraphOptimizationLevel, OrtApiCreateSession,
      OrtApiReleaseSession, OrtApiCreateCpuMemoryInfo, OrtApiReleaseMemoryInfo,
      OrtApiCreateTensorWithDataAsOrtValue, OrtApiReleaseValue, OrtApiRun,
      OrtApiGetTensorMutableData,
      viaApi_null]

/-- C10 on the library `demoApi`: with every handle null the release of a
session, the creation of a session and a run all return through the table at
address 16, and with a null `api` the same three calls fault. -/
theorem bridge_dereferences_only_api_witness :
    (∃ r, OrtApiReleaseSession demoRt 16 0 mach0 = .ok r) ∧
    (∃ r, OrtApiCreateSession demoRt 16 0 0 0 0 mach0 = .ok r) ∧
    (∃ r, OrtApiRun demoRt 16 0 0 0 0 0 0 0 0 mach0 = .ok r) ∧
    OrtApiReleaseSession demoRt 0 0 mach0 = .error .nullTable ∧
    OrtApiCreateSession demoRt 0 0 0 0 0 mach0 = .error .nullTable ∧
    OrtApiRun demoRt 0 0 0 0 0 0 0 0 0 mach0 = .error .nullTable :=
  have h := bridge_dereferences_only_api demoRt 16 demoApi (by decide) rfl
  have hb := h.2.2.2.2.2.2.2.2.2.2.2.2.2.2.2.2.2
  ⟨h.2.2.2.2.2.2.2.2.2.2.1 _ rfl 0 mach0, h.2.2.2.2.2.2.2.2.2.1 _ rfl 0 0 0 0 mach0,
    h.2.2.2.2.2.2.2.2.2.2.2.2.2.2.2.1 _ rfl 0 0 0 0 0 0 0 0 mach0,
    hb.2.2.2.2.2.2.2.2.2.2.1 0 mach0, hb.2.2.2.2.2.2.2.2.2.1 0 0 0 0 mach0,
    hb.2.2.2.2.2.2.2.2.2.2.2.2.2.2.2.1 0 0 0 0 0 0 0 0 mach0⟩

end Properties

end OrtBridge
